import Mathlib

/-
  Verification of the VIC land-surface model against its specification.

  The repository ships the central header `vicNl_def.h`, which declares the
  model constants, the forcing/output variable enumerations, and the data
  structures (soil layers, snow pack, energy balance record, output records).
  The numeric constants and enumerations below are transcribed from that
  header.  Behaviour that lives in translation units not present in the
  repository (the runoff/baseflow solver, the snow-melt step, the front
  tracker, the time-step driver) is modelled from the specification; each
  such definition carries a doc comment starting `Modelled from the spec:`.

  Real-valued quantities (C `double`) are embedded as rationals.
-/

/-! ## Constants from vicNl_def.h -/

/-- Baseflow parametrization code, vicNl_def.h line 48. -/
def ARNO : Nat := 0

/-- Baseflow parametrization code, vicNl_def.h line 49. -/
def NIJSSEN2001 : Nat := 1

/-- Bracketing step for snow surface temperatures (C), vicNl_def.h line 102. -/
def SNOW_DT : ℚ := 5

/-- Bracketing step for soil surface temperatures (C), vicNl_def.h line 105. -/
def SURF_DT : ℚ := 1

/-- Bracketing step for soil temperatures in the thermal flux solve (C),
    vicNl_def.h line 107. -/
def SOIL_DT : ℚ := 1/4

/-- Bracketing step for canopy air temperatures (C), vicNl_def.h line 109. -/
def CANOPY_DT : ℚ := 1

/-! ### Forcing variable types, vicNl_def.h lines 134-159 -/

def N_FORCING_TYPES : Nat := 24

def AIR_TEMP : Nat := 0

def ALBEDO : Nat := 1

def CRAINF : Nat := 2

def CSNOWF : Nat := 3

def DENSITY : Nat := 4

def LONGWAVE : Nat := 5

def LSRAINF : Nat := 6

def LSSNOWF : Nat := 7

def PREC : Nat := 8

def PRESSURE : Nat := 9

def PSURF : Nat := 10

def QAIR : Nat := 11

def RAINF : Nat := 12

def SHORTWAVE : Nat := 13

def SNOWF : Nat := 14

def TAIR : Nat := 15

def TMAX : Nat := 16

def TMIN : Nat := 17

def TSKC : Nat := 18

def VP : Nat := 19

def WIND : Nat := 20

def WIND_E : Nat := 21

def WIND_N : Nat := 22

def SKIP : Nat := 23

/-- The forcing variable codes in the order they are defined in the header. -/
def forcingCodes : List Nat :=
  [AIR_TEMP, ALBEDO, CRAINF, CSNOWF, DENSITY, LONGWAVE, LSRAINF, LSSNOWF,
   PREC, PRESSURE, PSURF, QAIR, RAINF, SHORTWAVE, SNOWF, TAIR, TMAX, TMIN,
   TSKC, VP, WIND, WIND_E, WIND_N, SKIP]

/-! ### Output variable types, vicNl_def.h lines 161-274 -/

def N_OUTVAR_TYPES : Nat := 110

def OUT_LAKE_DEPTH : Nat := 0

def OUT_LAKE_ICE : Nat := 1

def OUT_LAKE_ICE_FRACT : Nat := 2

def OUT_LAKE_ICE_HEIGHT : Nat := 3

def OUT_LAKE_MOIST : Nat := 4

def OUT_LAKE_SURF_AREA : Nat := 5

def OUT_LAKE_VOLUME : Nat := 6

def OUT_ROOTMOIST : Nat := 7

def OUT_SMFROZFRAC : Nat := 8

def OUT_SMLIQFRAC : Nat := 9

def OUT_SNOW_CANOPY : Nat := 10

def OUT_SNOW_COVER : Nat := 11

def OUT_SNOW_DEPTH : Nat := 12

def OUT_SOIL_ICE : Nat := 13

def OUT_SOIL_LIQ : Nat := 14

def OUT_SOIL_MOIST : Nat := 15

def OUT_SOIL_WET : Nat := 16

def OUT_SURFSTOR : Nat := 17

def OUT_SURF_FROST_FRAC : Nat := 18

def OUT_SWE : Nat := 19

def OUT_WDEW : Nat := 20

def OUT_BASEFLOW : Nat := 21

def OUT_DELINTERCEPT : Nat := 22

def OUT_DELSOILMOIST : Nat := 23

def OUT_DELSURFSTOR : Nat := 24

def OUT_DELSWE : Nat := 25

def OUT_EVAP : Nat := 26

def OUT_EVAP_BARE : Nat := 27

def OUT_EVAP_CANOP : Nat := 28

def OUT_EVAP_LAKE : Nat := 29

def OUT_INFLOW : Nat := 30

def OUT_PREC : Nat := 31

def OUT_RAINF : Nat := 32

def OUT_REFREEZE : Nat := 33

def OUT_RUNOFF : Nat := 34

def OUT_SNOW_MELT : Nat := 35

def OUT_SNOWF : Nat := 36

def OUT_SUB_BLOWING : Nat := 37

def OUT_SUB_CANOP : Nat := 38

def OUT_SUB_SNOW : Nat := 39

def OUT_SUB_SURFACE : Nat := 40

def OUT_TRANSP_VEG : Nat := 41

def OUT_ALBEDO : Nat := 42

def OUT_BARESOILT : Nat := 43

def OUT_FDEPTH : Nat := 44

def OUT_LAKE_ICE_TEMP : Nat := 45

def OUT_LAKE_SURF_TEMP : Nat := 46

def OUT_RAD_TEMP : Nat := 47

def OUT_SALBEDO : Nat := 48

def OUT_SNOW_PACK_TEMP : Nat := 49

def OUT_SNOW_SURF_TEMP : Nat := 50

def OUT_SOIL_TEMP : Nat := 51

def OUT_SOIL_TNODE : Nat := 52

def OUT_SURF_TEMP : Nat := 53

def OUT_TDEPTH : Nat := 54

def OUT_VEGT : Nat := 55

def OUT_ADV_SENS : Nat := 56

def OUT_ADVECTION : Nat := 57

def OUT_DELTACC : Nat := 58

def OUT_DELTAH : Nat := 59

def OUT_ENERGY_ERROR : Nat := 60

def OUT_FUSION : Nat := 61

def OUT_GRND_FLUX : Nat := 62

def OUT_IN_LONG : Nat := 63

def OUT_LATENT : Nat := 64

def OUT_LATENT_SUB : Nat := 65

def OUT_MELT_ENERGY : Nat := 66

def OUT_NET_LONG : Nat := 67

def OUT_NET_SHORT : Nat := 68

def OUT_R_NET : Nat := 69

def OUT_RFRZ_ENERGY : Nat := 70

def OUT_SENSIBLE : Nat := 71

def OUT_SNOW_FLUX : Nat := 72

def OUT_AERO_RESIST : Nat := 73

def OUT_AERO_COND : Nat := 74

def OUT_AIR_TEMP : Nat := 75

def OUT_DENSITY : Nat := 76

def OUT_LONGWAVE : Nat := 77

def OUT_PRESSURE : Nat := 78

def OUT_QAIR : Nat := 79

def OUT_REL_HUMID : Nat := 80

def OUT_SHORTWAVE : Nat := 81

def OUT_SURF_COND : Nat := 82

def OUT_VP : Nat := 83

def OUT_WIND : Nat := 84

def OUT_ADV_SENS_BAND : Nat := 85

def OUT_ADVECTION_BAND : Nat := 86

def OUT_ALBEDO_BAND : Nat := 87

def OUT_DELTACC_BAND : Nat := 88

def OUT_GRND_FLUX_BAND : Nat := 89

def OUT_IN_LONG_BAND : Nat := 90

def OUT_LATENT_BAND : Nat := 91

def OUT_LATENT_SUB_BAND : Nat := 92

def OUT_MELT_ENERGY_BAND : Nat := 93

def OUT_NET_LONG_BAND : Nat := 94

def OUT_NET_SHORT_BAND : Nat := 95

def OUT_RFRZ_ENERGY_BAND : Nat := 96

def OUT_SENSIBLE_BAND : Nat := 97

def OUT_SNOW_CANOPY_BAND : Nat := 98

def OUT_SNOW_COVER_BAND : Nat := 99

def OUT_SNOW_DEPTH_BAND : Nat := 100

def OUT_SNOW_FLUX_BAND : Nat := 101

def OUT_SNOW_MELT_BAND : Nat := 102

def OUT_SNOW_PACKT_BAND : Nat := 103

def OUT_SNOW_SURFT_BAND : Nat := 104

def OUT_SWE_BAND : Nat := 105

/-- The output variable codes in the order they are defined in the header. -/
def outvarCodes : List Nat :=
  [OUT_LAKE_DEPTH, OUT_LAKE_ICE, OUT_LAKE_ICE_FRACT, OUT_LAKE_ICE_HEIGHT,
   OUT_LAKE_MOIST, OUT_LAKE_SURF_AREA, OUT_LAKE_VOLUME, OUT_ROOTMOIST,
   OUT_SMFROZFRAC, OUT_SMLIQFRAC, OUT_SNOW_CANOPY, OUT_SNOW_COVER,
   OUT_SNOW_DEPTH, OUT_SOIL_ICE, OUT_SOIL_LIQ, OUT_SOIL_MOIST, OUT_SOIL_WET,
   OUT_SURFSTOR, OUT_SURF_FROST_FRAC, OUT_SWE, OUT_WDEW, OUT_BASEFLOW,
   OUT_DELINTERCEPT, OUT_DELSOILMOIST, OUT_DELSURFSTOR, OUT_DELSWE, OUT_EVAP,
   OUT_EVAP_BARE, OUT_EVAP_CANOP, OUT_EVAP_LAKE, OUT_INFLOW, OUT_PREC,
   OUT_RAINF, OUT_REFREEZE, OUT_RUNOFF, OUT_SNOW_MELT, OUT_SNOWF,
   OUT_SUB_BLOWING, OUT_SUB_CANOP, OUT_SUB_SNOW, OUT_SUB_SURFACE,
   OUT_TRANSP_VEG, OUT_ALBEDO, OUT_BARESOILT, OUT_FDEPTH, OUT_LAKE_ICE_TEMP,
   OUT_LAKE_SURF_TEMP, OUT_RAD_TEMP, OUT_SALBEDO, OUT_SNOW_PACK_TEMP,
   OUT_SNOW_SURF_TEMP, OUT_SOIL_TEMP, OUT_SOIL_TNODE, OUT_SURF_TEMP,
   OUT_TDEPTH, OUT_VEGT, OUT_ADV_SENS, OUT_ADVECTION, OUT_DELTACC,
   OUT_DELTAH, OUT_ENERGY_ERROR, OUT_FUSION, OUT_GRND_FLUX, OUT_IN_LONG,
   OUT_LATENT, OUT_LATENT_SUB, OUT_MELT_ENERGY, OUT_NET_LONG, OUT_NET_SHORT,
   OUT_R_NET, OUT_RFRZ_ENERGY, OUT_SENSIBLE, OUT_SNOW_FLUX, OUT_AERO_RESIST,
   OUT_AERO_COND, OUT_AIR_TEMP, OUT_DENSITY, OUT_LONGWAVE, OUT_PRESSURE,
   OUT_QAIR, OUT_REL_HUMID, OUT_SHORTWAVE, OUT_SURF_COND, OUT_VP, OUT_WIND,
   OUT_ADV_SENS_BAND, OUT_ADVECTION_BAND, OUT_ALBEDO_BAND, OUT_DELTACC_BAND,
   OUT_GRND_FLUX_BAND, OUT_IN_LONG_BAND, OUT_LATENT_BAND,
   OUT_LATENT_SUB_BAND, OUT_MELT_ENERGY_BAND, OUT_NET_LONG_BAND,
   OUT_NET_SHORT_BAND, OUT_RFRZ_ENERGY_BAND, OUT_SENSIBLE_BAND,
   OUT_SNOW_CANOPY_BAND, OUT_SNOW_COVER_BAND, OUT_SNOW_DEPTH_BAND,
   OUT_SNOW_FLUX_BAND, OUT_SNOW_MELT_BAND, OUT_SNOW_PACKT_BAND,
   OUT_SNOW_SURFT_BAND, OUT_SWE_BAND]

/-! ### Aggregation method types, vicNl_def.h lines 285-291 -/

def AGG_TYPE_AVG : Nat := 0

def AGG_TYPE_BEG : Nat := 1

def AGG_TYPE_END : Nat := 2

def AGG_TYPE_MAX : Nat := 3

def AGG_TYPE_MIN : Nat := 4

def AGG_TYPE_SUM : Nat := 5

/-! ## Data model

    Structures transcribed from vicNl_def.h, restricted to the fields the
    claims are about; C `double` fields become rationals. -/

/-- Soil variables of one layer of the soil column
    (layer_data_struct, vicNl_def.h lines 734-749). -/
structure layer_data_struct where
  Cs : ℚ
  T : ℚ
  evap : ℚ
  ice : ℚ
  kappa : ℚ
  moist : ℚ
  phi : ℚ
deriving DecidableEq

/-- The liquid (unfrozen) water of a layer: total moisture minus ice.
    The header stores `moist` (total moisture) and `ice`; the liquid part is
    their difference, so the frozen/unfrozen partition `ice + liquid = moist`
    is the defining relation. -/
def liquid (l : layer_data_struct) : ℚ := l.moist - l.ice

/-- The per-layer invariant of the spec: `0 ≤ ice ≤ moist ≤ max_moist`,
    with `max_moist` the layer's field from soil_con_struct
    (vicNl_def.h line 594). -/
def LayerInv (max_moist : ℚ) (l : layer_data_struct) : Prop :=
  0 ≤ l.ice ∧ l.ice ≤ l.moist ∧ l.moist ≤ max_moist

/-- The moisture-update operations a layer undergoes in one time step. -/
inductive LayerOp where
  | infiltrate (amount : ℚ)
  | drainLiquid (amount : ℚ)
  | freeze (amount : ℚ)
  | thaw (amount : ℚ)
deriving DecidableEq

/-- Modelled from the spec: the column solver (runoff/frozen-soil code, not
    in the repository) updates a layer by adding infiltrating water capped at
    `max_moist`, removing evaporated/drained water capped at the available
    liquid, and freezing/thawing bounded by the available liquid/ice. -/
def applyLayerOp (max_moist : ℚ) (op : LayerOp) (l : layer_data_struct) :
    layer_data_struct :=
  match op with
  | .infiltrate a => { l with moist := min (l.moist + max a 0) max_moist }
  | .drainLiquid a => { l with moist := l.moist - min (max a 0) (l.moist - l.ice) }
  | .freeze a => { l with ice := l.ice + min (max a 0) (l.moist - l.ice) }
  | .thaw a => { l with ice := l.ice - min (max a 0) l.ice }

/-- Energy balance record (energy_bal_struct, vicNl_def.h lines 785-862),
    restricted to the closure fluxes and the front lists.  The front depth
    arrays `fdepth[MAX_FRONTS]`/`tdepth[MAX_FRONTS]` are embedded as bounded
    lists; `Nfrost`/`Nthaw` are their lengths. -/
structure energy_bal_struct where
  NetLongAtmos : ℚ
  NetShortAtmos : ℚ
  grnd_flux : ℚ
  latent : ℚ
  sensible : ℚ
  error : ℚ
  fdepth : List ℚ
  tdepth : List ℚ
deriving DecidableEq

/-- Net radiation of an energy balance record: net shortwave plus net
    longwave to the atmosphere. -/
def net_radiation (e : energy_bal_struct) : ℚ := e.NetShortAtmos + e.NetLongAtmos

/-- Modelled from the spec: the small fixed tolerance ε of the energy-closure
    check (the check lives in driver code not in the repository). -/
def ENERGY_CLOSURE_EPS : ℚ := 1/1000

/-- Modelled from the spec: the energy-balance solver (not in the repository)
    records in `error` the residual of the surface energy balance after
    accounting net radiation against the sensible, latent and ground fluxes,
    so closure holds by construction for every record it emits. -/
def closeEnergyBalance (e : energy_bal_struct) : energy_bal_struct :=
  { e with error := net_radiation e - e.sensible - e.latent - e.grnd_flux }

/-- Number of simulated freezing fronts of a record: the length of its
    bounded `fdepth` list (field `Nfrost`, vicNl_def.h line 859). -/
def Nfrost (e : energy_bal_struct) : Nat := e.fdepth.length

/-- Number of simulated thawing fronts of a record: the length of its
    bounded `tdepth` list (field `Nthaw`, vicNl_def.h line 860). -/
def Nthaw (e : energy_bal_struct) : Nat := e.tdepth.length

/-- Modelled from the spec: the capacity bound MAX_FRONTS on the freezing and
    thawing front lists.  The header sizes `fdepth`/`tdepth` by MAX_FRONTS,
    whose defining header (user_def.h) is not in the repository. -/
def MAX_FRONTS : Nat := 3

/-- Modelled from the spec: the front tracker (soil thermal code, not in the
    repository) appends a newly found front to the list; when the capacity
    MAX_FRONTS is exceeded the oldest front (the list head) is discarded
    rather than the bound violated. -/
def pushFront (d : ℚ) (fronts : List ℚ) : List ℚ :=
  if fronts.length < MAX_FRONTS then fronts ++ [d] else fronts.tail ++ [d]

/-- Record a newly found freezing front depth on an energy balance record. -/
def recordFreezingFront (d : ℚ) (e : energy_bal_struct) : energy_bal_struct :=
  { e with fdepth := pushFront d e.fdepth }

/-- Record a newly found thawing front depth on an energy balance record. -/
def recordThawingFront (d : ℚ) (e : energy_bal_struct) : energy_bal_struct :=
  { e with tdepth := pushFront d e.tdepth }

/-- Moisture state saved for differencing with the next time step
    (save_data_struct, vicNl_def.h lines 942-947). -/
structure save_data_struct where
  total_soil_moist : ℚ
  surfstor : ℚ
  swe : ℚ
  wdew : ℚ
deriving DecidableEq

/-- Column fluxes of a cell for one time step (cell_data_struct,
    vicNl_def.h lines 755-779, flux fields). -/
structure cell_data_struct where
  baseflow : ℚ
  inflow : ℚ
  runoff : ℚ
  layer : List layer_data_struct
deriving DecidableEq

/-- Modelled from the spec: the driver (not in the repository) computes the
    per-step water balance error as
    inflow − runoff − baseflow − Δ(total column soil moisture) − Δ(swe)
    − Δ(canopy interception storage), differencing the current save_data
    against the previous step's. -/
def water_error (c : cell_data_struct) (prev curr : save_data_struct) : ℚ :=
  c.inflow - c.runoff - c.baseflow
    - (curr.total_soil_moist - prev.total_soil_moist)
    - (curr.swe - prev.swe) - (curr.wdew - prev.wdew)

/-- Modelled from the spec: the step report emitted by the driver (not in the
    repository); the water balance error is always one of its entries, never
    dropped. -/
def reportStep (c : cell_data_struct) (prev curr : save_data_struct) :
    List (String × ℚ) :=
  [("RUNOFF", c.runoff), ("BASEFLOW", c.baseflow), ("INFLOW", c.inflow),
   ("WATER_ERROR", water_error c prev curr)]

/-- Snow pack state (snow_data_struct, vicNl_def.h lines 878-918), restricted
    to the fields the melt-step claim is about. -/
structure snow_data_struct where
  coverage : ℚ
  mass_error : ℚ
  melt : ℚ
  pack_water : ℚ
  surf_temp : ℚ
  swq : ℚ
deriving DecidableEq

/-- Modelled from the spec: one snow-melt sub-step (snow_melt code, not in
    the repository) under melting conditions.  The energy surplus expressed
    as potential melt is capped at the available `swq`; the un-meltable
    surplus is reported through `mass_error`, never silently absorbed;
    coverage is zeroed when the pack vanishes. -/
def snowMeltStep (potentialMelt : ℚ) (s : snow_data_struct) :
    snow_data_struct :=
  { s with
    swq := s.swq - min (max potentialMelt 0) s.swq
    melt := min (max potentialMelt 0) s.swq
    coverage := if s.swq - min (max potentialMelt 0) s.swq = 0 then 0
                else s.coverage
    mass_error := max potentialMelt 0 - min (max potentialMelt 0) s.swq }

/-- Soil parameters of a grid cell relevant to baseflow (soil_con_struct,
    vicNl_def.h lines 554-602): the ARNO parameters {Ds, Dsmax, Ws, c} and
    the NIJSSEN2001 parameters {d1, d2, d3, d4} (read into the same record,
    cf. option_struct.BASEFLOW, line 380), with the bottom layer's residual
    and maximum moisture. -/
structure soil_con_struct where
  Ds : ℚ
  Dsmax : ℚ
  Ws : ℚ
  c : Nat
  d1 : ℚ
  d2 : ℚ
  d3 : ℚ
  d4 : Nat
  resid_moist : ℚ
  max_moist : ℚ
deriving DecidableEq

/-- Relative moisture of the bottom layer above residual, as a fraction of
    the moisture range between residual and maximum. -/
def rel_moist (p : soil_con_struct) (moist : ℚ) : ℚ :=
  (moist - p.resid_moist) / (p.max_moist - p.resid_moist)

/-- Modelled from the spec: the ARNO-type nonlinear drainage law (runoff
    code, not in the repository), parameterized by {Ds, Dsmax, Ws, c}:
    linear in relative moisture up to the fraction Ws of maximum, with a
    nonlinear excess term above it; zero at or below residual moisture. -/
def arno_baseflow (p : soil_con_struct) (moist : ℚ) : ℚ :=
  if moist ≤ p.resid_moist then 0
  else
    p.Ds * p.Dsmax / p.Ws * rel_moist p moist +
      (if p.Ws < rel_moist p moist then
        p.Dsmax * (1 - p.Ds / p.Ws) *
          ((rel_moist p moist - p.Ws) / (1 - p.Ws)) ^ p.c
      else 0)

/-- Modelled from the spec: the alternative four-parameter formulation
    (NIJSSEN2001, runoff code not in the repository), parameterized by
    {d1, d2, d3, d4}: linear in relative moisture with a nonlinear excess
    term above the threshold d3; zero at or below residual moisture. -/
def nijssen2001_baseflow (p : soil_con_struct) (moist : ℚ) : ℚ :=
  if moist ≤ p.resid_moist then 0
  else
    p.d1 * rel_moist p moist +
      (if p.d3 < rel_moist p moist then
        p.d2 * (rel_moist p moist - p.d3) ^ p.d4
      else 0)

/-- Bottom-layer baseflow dispatched on the configuration flag
    option_struct.BASEFLOW (vicNl_def.h line 380): ARNO selects the
    ARNO-type law, NIJSSEN2001 the four-parameter alternative. -/
def baseflow_bottom (BASEFLOW : Nat) (p : soil_con_struct) (moist : ℚ) : ℚ :=
  if BASEFLOW = NIJSSEN2001 then nijssen2001_baseflow p moist
  else arno_baseflow p moist

/-! ## Time-step driver and sub-step arrays -/

/-- Modelled from the spec: the aggregate slot index NR of any per-sub-step
    array equals NF, the number of snow sub-steps (globals NR/NF,
    vicNl_def.h lines 302-306; the driver that sets them is not in the
    repository). -/
def NR (nf : Nat) : Nat := nf

/-- Modelled from the spec: a per-sub-step atmospheric array
    (atmos_data_struct, vicNl_def.h lines 673-716) holds the NF snow
    sub-step values at indices 0..NF−1 followed by the full-model-step
    aggregate at index NR. -/
def subStepArray (vals : List ℚ) (agg : ℚ) : List ℚ := vals ++ [agg]

/-- Counters of solver invocations across a model run. -/
structure driver_counts where
  snowSolves : Nat
  soilIntegrations : Nat
deriving DecidableEq

/-- Modelled from the spec: the time-step driver (not in the repository)
    runs the snowpack/energy solve once per snow sub-step (NF times) and
    integrates soil moisture once per full model step. -/
def fullModelStep (nf : Nat) (st : driver_counts) : driver_counts :=
  let afterSnow := (List.range nf).foldl
    (fun acc _ => { acc with snowSolves := acc.snowSolves + 1 }) st
  { afterSnow with soilIntegrations := afterSnow.soilIntegrations + 1 }

/-! ## Output aggregation policies -/

/-- The closed enumeration of aggregation methods
    (AGG_TYPE_*, vicNl_def.h lines 285-291). -/
inductive AggMethod where
  | avg
  | begv
  | endv
  | maxv
  | minv
  | sumv
deriving DecidableEq

/-- Numeric code of each aggregation method, as defined in the header. -/
def AggMethod.code : AggMethod → Nat
  | .avg => AGG_TYPE_AVG
  | .begv => AGG_TYPE_BEG
  | .endv => AGG_TYPE_END
  | .maxv => AGG_TYPE_MAX
  | .minv => AGG_TYPE_MIN
  | .sumv => AGG_TYPE_SUM

/-- All six aggregation methods. -/
def aggMethods : List AggMethod :=
  [.avg, .begv, .endv, .maxv, .minv, .sumv]

/-- Output information for one variable (out_data_struct, vicNl_def.h lines
    952-973).  `aggtype` is one value of the closed enumeration; `data`
    holds the per-step values, `aggdata` the collaborator's aggregates. -/
structure out_data_struct where
  varname : String
  write : Bool
  aggtype : AggMethod
  nelem : Nat
  data : List ℚ
  aggdata : List ℚ
deriving DecidableEq

/-- Modelled from the spec: the core stores the current step's values of a
    variable into `data`; aggregation over reporting intervals belongs to
    the output collaborator, so the core touches neither `aggdata` nor the
    declared policy `aggtype`. -/
def coreStoreStep (o : out_data_struct) (vals : List ℚ) : out_data_struct :=
  { o with data := vals }

/-! ## Bracketed root-finding solvers -/

/-- A bracketed root-finding search, characterized by the temperature step
    used to widen/scan the bracket. -/
structure bracket_solver where
  step : ℚ
deriving DecidableEq

/-- Modelled from the spec: the soil surface-temperature solve (solver code
    not in the repository) brackets with step SURF_DT. -/
def soilSurfaceSolver : bracket_solver := ⟨SURF_DT⟩

/-- Modelled from the spec: the soil-layer temperature solve (soil thermal
    flux code not in the repository) brackets with step SOIL_DT. -/
def soilLayerSolver : bracket_solver := ⟨SOIL_DT⟩

/-- Modelled from the spec: the snow surface-temperature solve (snow energy
    balance code not in the repository) brackets with step SNOW_DT. -/
def snowSurfaceSolver : bracket_solver := ⟨SNOW_DT⟩

/-- Modelled from the spec: the canopy foliage-temperature solve (canopy
    energy balance code not in the repository) brackets with step
    CANOPY_DT. -/
def canopySolver : bracket_solver := ⟨CANOPY_DT⟩

/-! ## Helper lemmas -/

theorem pushFront_length_le (d : ℚ) (l : List ℚ) (h : l.length ≤ MAX_FRONTS) :
    (pushFront d l).length ≤ MAX_FRONTS := by
  unfold pushFront MAX_FRONTS
  unfold MAX_FRONTS at h
  split_ifs with hlt
  · simp only [List.length_append, List.length_singleton]
    omega
  · simp only [List.length_append, List.length_tail, List.length_singleton]
    omega

theorem snow_fold_solves (l : List Nat) (st : driver_counts) :
    (l.foldl (fun acc _ => { acc with snowSolves := acc.snowSolves + 1 })
      st).snowSolves = st.snowSolves + l.length := by
  induction l generalizing st with
  | nil => rfl
  | cons a t ih =>
      rw [List.foldl_cons, ih]
      show st.snowSolves + 1 + t.length = st.snowSolves + (a :: t).length
      simp only [List.length_cons]
      omega

theorem snow_fold_soil (l : List Nat) (st : driver_counts) :
    (l.foldl (fun acc _ => { acc with snowSolves := acc.snowSolves + 1 })
      st).soilIntegrations = st.soilIntegrations := by
  induction l generalizing st with
  | nil => rfl
  | cons a t ih => rw [List.foldl_cons, ih]

theorem rel_moist_nonneg (p : soil_con_struct) (m : ℚ)
    (hrm : p.resid_moist < p.max_moist) (hm : p.resid_moist ≤ m) :
    0 ≤ rel_moist p m := by
  unfold rel_moist
  apply div_nonneg <;> linarith

theorem rel_moist_mono (p : soil_con_struct) (m1 m2 : ℚ)
    (hrm : p.resid_moist < p.max_moist) (hm : m1 ≤ m2) :
    rel_moist p m1 ≤ rel_moist p m2 := by
  unfold rel_moist
  have hD : (0 : ℚ) < p.max_moist - p.resid_moist := by linarith
  gcongr

theorem arno_baseflow_nonneg (p : soil_con_struct) (m : ℚ)
    (hDs : 0 ≤ p.Ds) (hWs : 0 < p.Ws) (hDsWs : p.Ds ≤ p.Ws)
    (hDsmax : 0 ≤ p.Dsmax) (hWs1 : p.Ws < 1)
    (hrm : p.resid_moist < p.max_moist) :
    0 ≤ arno_baseflow p m := by
  unfold arno_baseflow
  split_ifs with h1 h2
  · exact le_refl 0
  · have hrel : 0 ≤ rel_moist p m := rel_moist_nonneg p m hrm (by linarith)
    have hk : 0 ≤ p.Ds * p.Dsmax / p.Ws :=
      div_nonneg (mul_nonneg hDs hDsmax) hWs.le
    have hk2 : 0 ≤ p.Dsmax * (1 - p.Ds / p.Ws) := by
      have hq : p.Ds / p.Ws ≤ 1 := (div_le_one hWs).mpr hDsWs
      exact mul_nonneg hDsmax (by linarith)
    have hx : 0 ≤ (rel_moist p m - p.Ws) / (1 - p.Ws) :=
      div_nonneg (by linarith) (by linarith)
    have ht2 := mul_nonneg hk2 (pow_nonneg hx p.c)
    have ht1 := mul_nonneg hk hrel
    linarith
  · have hrel : 0 ≤ rel_moist p m := rel_moist_nonneg p m hrm (by linarith)
    have hk : 0 ≤ p.Ds * p.Dsmax / p.Ws :=
      div_nonneg (mul_nonneg hDs hDsmax) hWs.le
    have ht1 := mul_nonneg hk hrel
    linarith

theorem arno_baseflow_mono (p : soil_con_struct) (m1 m2 : ℚ)
    (hDs : 0 ≤ p.Ds) (hWs : 0 < p.Ws) (hDsWs : p.Ds ≤ p.Ws)
    (hDsmax : 0 ≤ p.Dsmax) (hWs1 : p.Ws < 1)
    (hrm : p.resid_moist < p.max_moist) (hm : m1 ≤ m2) :
    arno_baseflow p m1 ≤ arno_baseflow p m2 := by
  by_cases h1 : m1 ≤ p.resid_moist
  · have h0 : arno_baseflow p m1 = 0 := by
      unfold arno_baseflow
      rw [if_pos h1]
    rw [h0]
    exact arno_baseflow_nonneg p m2 hDs hWs hDsWs hDsmax hWs1 hrm
  · have h2 : ¬ m2 ≤ p.resid_moist := by linarith
    unfold arno_baseflow
    rw [if_neg h1, if_neg h2]
    have hrel : rel_moist p m1 ≤ rel_moist p m2 := rel_moist_mono p m1 m2 hrm hm
    have hk : 0 ≤ p.Ds * p.Dsmax / p.Ws :=
      div_nonneg (mul_nonneg hDs hDsmax) hWs.le
    have hlin : p.Ds * p.Dsmax / p.Ws * rel_moist p m1
        ≤ p.Ds * p.Dsmax / p.Ws * rel_moist p m2 :=
      mul_le_mul_of_nonneg_left hrel hk
    have hk2 : 0 ≤ p.Dsmax * (1 - p.Ds / p.Ws) := by
      have hq : p.Ds / p.Ws ≤ 1 := (div_le_one hWs).mpr hDsWs
      exact mul_nonneg hDsmax (by linarith)
    apply add_le_add hlin
    by_cases hw1 : p.Ws < rel_moist p m1
    · rw [if_pos hw1, if_pos (lt_of_lt_of_le hw1 hrel)]
      apply mul_le_mul_of_nonneg_left _ hk2
      apply pow_le_pow_left₀ (div_nonneg (by linarith) (by linarith))
      have hD1 : (0 : ℚ) < 1 - p.Ws := by linarith
      gcongr
    · rw [if_neg hw1]
      by_cases hw2 : p.Ws < rel_moist p m2
      · rw [if_pos hw2]
        exact mul_nonneg hk2
          (pow_nonneg (div_nonneg (by linarith) (by linarith)) p.c)
      · rw [if_neg hw2]

theorem arno_baseflow_zero (p : soil_con_struct) (m : ℚ)
    (h : m ≤ p.resid_moist) : arno_baseflow p m = 0 := by
  unfold arno_baseflow
  rw [if_pos h]

theorem nijssen2001_baseflow_nonneg (p : soil_con_struct) (m : ℚ)
    (hd1 : 0 ≤ p.d1) (hd2 : 0 ≤ p.d2)
    (hrm : p.resid_moist < p.max_moist) :
    0 ≤ nijssen2001_baseflow p m := by
  unfold nijssen2001_baseflow
  split_ifs with h1 h2
  · exact le_refl 0
  · have hrel : 0 ≤ rel_moist p m := rel_moist_nonneg p m hrm (by linarith)
    have ht1 := mul_nonneg hd1 hrel
    have ht2 := mul_nonneg hd2
      (pow_nonneg (by linarith : (0:ℚ) ≤ rel_moist p m - p.d3) p.d4)
    linarith
  · have hrel : 0 ≤ rel_moist p m := rel_moist_nonneg p m hrm (by linarith)
    have ht1 := mul_nonneg hd1 hrel
    linarith

theorem nijssen2001_baseflow_mono (p : soil_con_struct) (m1 m2 : ℚ)
    (hd1 : 0 ≤ p.d1) (hd2 : 0 ≤ p.d2)
    (hrm : p.resid_moist < p.max_moist) (hm : m1 ≤ m2) :
    nijssen2001_baseflow p m1 ≤ nijssen2001_baseflow p m2 := by
  by_cases h1 : m1 ≤ p.resid_moist
  · have h0 : nijssen2001_baseflow p m1 = 0 := by
      unfold nijssen2001_baseflow
      rw [if_pos h1]
    rw [h0]
    exact nijssen2001_baseflow_nonneg p m2 hd1 hd2 hrm
  · have h2 : ¬ m2 ≤ p.resid_moist := by linarith
    unfold nijssen2001_baseflow
    rw [if_neg h1, if_neg h2]
    have hrel : rel_moist p m1 ≤ rel_moist p m2 := rel_moist_mono p m1 m2 hrm hm
    have hlin : p.d1 * rel_moist p m1 ≤ p.d1 * rel_moist p m2 :=
      mul_le_mul_of_nonneg_left hrel hd1
    apply add_le_add hlin
    by_cases hw1 : p.d3 < rel_moist p m1
    · rw [if_pos hw1, if_pos (lt_of_lt_of_le hw1 hrel)]
      apply mul_le_mul_of_nonneg_left _ hd2
      apply pow_le_pow_left₀ (by linarith) (by linarith)
    · rw [if_neg hw1]
      by_cases hw2 : p.d3 < rel_moist p m2
      · rw [if_pos hw2]
        exact mul_nonneg hd2 (pow_nonneg (by linarith) p.d4)
      · rw [if_neg hw2]

theorem nijssen2001_baseflow_zero (p : soil_con_struct) (m : ℚ)
    (h : m ≤ p.resid_moist) : nijssen2001_baseflow p m = 0 := by
  unfold nijssen2001_baseflow
  rw [if_pos h]

/-! ## Claim theorems -/

/-- C1: for every layer of a soil column and every update operation, the
    invariant 0 ≤ ice ≤ moist ≤ max_moist is preserved and the
    frozen/unfrozen partition ice + liquid = moist holds exactly. -/
theorem C1_layer_partition_invariant (max_moist : ℚ) (l : layer_data_struct)
    (op : LayerOp) (h : LayerInv max_moist l) :
    LayerInv max_moist (applyLayerOp max_moist op l) ∧
    (applyLayerOp max_moist op l).ice + liquid (applyLayerOp max_moist op l)
      = (applyLayerOp max_moist op l).moist := by
  obtain ⟨h1, h2, h3⟩ := h
  refine ⟨?_, by simp only [liquid]; ring⟩
  cases op with
  | infiltrate a =>
      simp only [LayerInv, applyLayerOp]
      refine ⟨h1, ?_, ?_⟩ <;> simp only [min_def, max_def] <;>
        split_ifs <;> linarith
  | drainLiquid a =>
      simp only [LayerInv, applyLayerOp]
      refine ⟨h1, ?_, ?_⟩ <;> simp only [min_def, max_def] <;>
        split_ifs <;> linarith
  | freeze a =>
      simp only [LayerInv, applyLayerOp]
      refine ⟨?_, ?_, h3⟩ <;> simp only [min_def, max_def] <;>
        split_ifs <;> linarith
  | thaw a =>
      simp only [LayerInv, applyLayerOp]
      refine ⟨?_, ?_, h3⟩ <;> simp only [min_def, max_def] <;>
        split_ifs <;> linarith

/-- Witness for C1: a layer with ice 5 and moisture 20 below max_moist 100,
    infiltrating 30 mm, keeps the invariant and the exact partition. -/
theorem C1_layer_partition_invariant_witness :
    LayerInv 100 (applyLayerOp 100 (.infiltrate 30) ⟨0, 0, 0, 5, 0, 20, 0⟩) ∧
    (applyLayerOp 100 (.infiltrate 30) ⟨0, 0, 0, 5, 0, 20, 0⟩).ice
      + liquid (applyLayerOp 100 (.infiltrate 30) ⟨0, 0, 0, 5, 0, 20, 0⟩)
      = (applyLayerOp 100 (.infiltrate 30) ⟨0, 0, 0, 5, 0, 20, 0⟩).moist :=
  C1_layer_partition_invariant 100 ⟨0, 0, 0, 5, 0, 20, 0⟩ (.infiltrate 30)
    ⟨by norm_num, by norm_num, by norm_num⟩

/-- C2: for every energy-balance record produced by the closure step, the
    flux terms and the recorded error satisfy
    |net_radiation − sensible − latent − ground_flux − error| < ε. -/
theorem C2_energy_closure (e : energy_bal_struct) :
    |net_radiation (closeEnergyBalance e) - (closeEnergyBalance e).sensible
      - (closeEnergyBalance e).latent - (closeEnergyBalance e).grnd_flux
      - (closeEnergyBalance e).error| < ENERGY_CLOSURE_EPS := by
  have h : net_radiation (closeEnergyBalance e)
      - (closeEnergyBalance e).sensible - (closeEnergyBalance e).latent
      - (closeEnergyBalance e).grnd_flux - (closeEnergyBalance e).error
      = 0 := by
    simp only [closeEnergyBalance, net_radiation]
    ring
  rw [h, abs_zero]
  norm_num [ENERGY_CLOSURE_EPS]

/-- C3: for every time step the water balance identity
    inflow − runoff − baseflow − Δmoist − Δswe − Δwdew equals the
    water-balance error term, and that error is an entry of the emitted
    report, never dropped. -/
theorem C3_water_balance_reported (c : cell_data_struct)
    (prev curr : save_data_struct) :
    water_error c prev curr
      = c.inflow - c.runoff - c.baseflow
        - (curr.total_soil_moist - prev.total_soil_moist)
        - (curr.swe - prev.swe) - (curr.wdew - prev.wdew) ∧
    ("WATER_ERROR", water_error c prev curr) ∈ reportStep c prev curr := by
  refine ⟨rfl, ?_⟩
  simp [reportStep]

/-- C4: a one-step snow melt update never drives swq negative: melt is
    capped at the available swq (all of it melts when the potential melt
    reaches swq), coverage stays in [0,1], and the energy surplus beyond
    the available snow is reported through mass_error. -/
theorem C4_snow_melt_capped (potentialMelt : ℚ) (s : snow_data_struct)
    (h0 : 0 ≤ s.swq) (h1 : 0 ≤ s.coverage) (h2 : s.coverage ≤ 1) :
    0 ≤ (snowMeltStep potentialMelt s).swq ∧
    (snowMeltStep potentialMelt s).melt ≤ s.swq ∧
    (snowMeltStep potentialMelt s).swq
      = s.swq - (snowMeltStep potentialMelt s).melt ∧
    0 ≤ (snowMeltStep potentialMelt s).coverage ∧
    (snowMeltStep potentialMelt s).coverage ≤ 1 ∧
    (snowMeltStep potentialMelt s).mass_error
      = max potentialMelt 0 - (snowMeltStep potentialMelt s).melt ∧
    (s.swq ≤ max potentialMelt 0 →
      (snowMeltStep potentialMelt s).melt = s.swq) := by
  refine ⟨?_, ?_, rfl, ?_, ?_, rfl, ?_⟩
  · simp only [snowMeltStep, min_def, max_def]
    split_ifs <;> linarith
  · simp only [snowMeltStep, min_def, max_def]
    split_ifs <;> linarith
  · simp only [snowMeltStep, min_def, max_def]
    split_ifs <;> linarith
  · simp only [snowMeltStep, min_def, max_def]
    split_ifs <;> linarith
  · intro hle
    simp only [snowMeltStep]
    exact min_eq_right hle

/-- Witness for C4: a snowpack with swq = 10 mm under a potential melt of
    15 mm melts exactly 10 mm, swq stays non-negative, and the 5 mm surplus
    is reported through mass_error. -/
theorem C4_snow_melt_capped_witness :
    0 ≤ (snowMeltStep 15 ⟨1, 0, 0, 0, 0, 10⟩).swq ∧
    (snowMeltStep 15 ⟨1, 0, 0, 0, 0, 10⟩).melt
      ≤ (⟨1, 0, 0, 0, 0, 10⟩ : snow_data_struct).swq ∧
    (snowMeltStep 15 ⟨1, 0, 0, 0, 0, 10⟩).swq
      = (⟨1, 0, 0, 0, 0, 10⟩ : snow_data_struct).swq
        - (snowMeltStep 15 ⟨1, 0, 0, 0, 0, 10⟩).melt ∧
    0 ≤ (snowMeltStep 15 ⟨1, 0, 0, 0, 0, 10⟩).coverage ∧
    (snowMeltStep 15 ⟨1, 0, 0, 0, 0, 10⟩).coverage ≤ 1 ∧
    (snowMeltStep 15 ⟨1, 0, 0, 0, 0, 10⟩).mass_error
      = max 15 0 - (snowMeltStep 15 ⟨1, 0, 0, 0, 0, 10⟩).melt ∧
    ((⟨1, 0, 0, 0, 0, 10⟩ : snow_data_struct).swq ≤ max 15 0 →
      (snowMeltStep 15 ⟨1, 0, 0, 0, 0, 10⟩).melt
        = (⟨1, 0, 0, 0, 0, 10⟩ : snow_data_struct).swq) :=
  C4_snow_melt_capped 15 ⟨1, 0, 0, 0, 0, 10⟩
    (by norm_num) (by norm_num) (by norm_num)

/-- C6: the bracketed root-finding searches are configured with the header
    step constants: 1 °C for the soil surface solve, 0.25 °C for soil-layer
    temperatures, 5 °C for the snow surface solve, 1 °C for the canopy
    solve. -/
theorem C6_bracket_step_constants :
    soilSurfaceSolver.step = SURF_DT ∧ SURF_DT = 1 ∧
    soilLayerSolver.step = SOIL_DT ∧ SOIL_DT = 1/4 ∧
    snowSurfaceSolver.step = SNOW_DT ∧ SNOW_DT = 5 ∧
    canopySolver.step = CANOPY_DT ∧ CANOPY_DT = 1 :=
  ⟨rfl, rfl, rfl, rfl, rfl, rfl, rfl, rfl⟩

/-- C7: in a per-sub-step atmospheric array the NF sub-step values occupy
    indices 0..NF−1, the full-step aggregate occupies index NR = NF, and
    one full model step runs the snowpack/energy solve once per sub-step
    while integrating soil moisture exactly once. -/
theorem C7_substep_layout (vals : List ℚ) (agg : ℚ) (st : driver_counts)
    (i : Nat) (hi : i < vals.length) :
    (subStepArray vals agg)[i]? = vals[i]? ∧
    (subStepArray vals agg)[NR vals.length]? = some agg ∧
    (subStepArray vals agg).length = vals.length + 1 ∧
    (fullModelStep vals.length st).snowSolves = st.snowSolves + vals.length ∧
    (fullModelStep vals.length st).soilIntegrations
      = st.soilIntegrations + 1 := by
  refine ⟨?_, ?_, ?_, ?_, ?_⟩
  · show (vals ++ [agg])[i]? = vals[i]?
    rw [List.getElem?_append, if_pos hi]
  · show (vals ++ [agg])[vals.length]? = some agg
    rw [List.getElem?_append_right (le_refl vals.length)]
    simp
  · simp [subStepArray]
  · show ((List.range vals.length).foldl
        (fun acc _ => { acc with snowSolves := acc.snowSolves + 1 })
        st).snowSolves = st.snowSolves + vals.length
    rw [snow_fold_solves]
    simp
  · show ((List.range vals.length).foldl
        (fun acc _ => { acc with snowSolves := acc.snowSolves + 1 })
        st).soilIntegrations + 1 = st.soilIntegrations + 1
    rw [snow_fold_soil]

/-- Witness for C7: with NF = 3 sub-step values [1, 2, 3] and aggregate 9,
    index 1 reads a sub-step value, index NR 3 reads the aggregate, and one
    full step adds 3 snow solves and 1 soil integration. -/
theorem C7_substep_layout_witness :
    (subStepArray [1, 2, 3] 9)[1]? = (([1, 2, 3] : List ℚ))[1]? ∧
    (subStepArray [1, 2, 3] 9)[NR 3]? = some 9 ∧
    (subStepArray [1, 2, 3] 9).length = 3 + 1 ∧
    (fullModelStep 3 ⟨0, 0⟩).snowSolves = 0 + 3 ∧
    (fullModelStep 3 ⟨0, 0⟩).soilIntegrations = 0 + 1 :=
  C7_substep_layout [1, 2, 3] 9 ⟨0, 0⟩ 1 (by decide)

/-- C8: recording a freezing or thawing front keeps Nfrost and Nthaw within
    the fixed capacity MAX_FRONTS; at capacity the oldest front is
    discarded rather than the bound violated. -/
theorem C8_bounded_front_lists (df dth : ℚ) (e : energy_bal_struct)
    (h1 : Nfrost e ≤ MAX_FRONTS) (h2 : Nthaw e ≤ MAX_FRONTS) :
    Nfrost (recordFreezingFront df e) ≤ MAX_FRONTS ∧
    Nthaw (recordFreezingFront df e) ≤ MAX_FRONTS ∧
    Nfrost (recordThawingFront dth e) ≤ MAX_FRONTS ∧
    Nthaw (recordThawingFront dth e) ≤ MAX_FRONTS ∧
    (Nfrost e = MAX_FRONTS →
      (recordFreezingFront df e).fdepth = e.fdepth.tail ++ [df]) ∧
    (Nthaw e = MAX_FRONTS →
      (recordThawingFront dth e).tdepth = e.tdepth.tail ++ [dth]) := by
  refine ⟨?_, ?_, ?_, ?_, ?_, ?_⟩
  · exact pushFront_length_le df e.fdepth h1
  · exact h2
  · exact h1
  · exact pushFront_length_le dth e.tdepth h2
  · intro hcap
    show pushFront df e.fdepth = e.fdepth.tail ++ [df]
    have hno : ¬ e.fdepth.length < MAX_FRONTS := by
      rw [show e.fdepth.length = MAX_FRONTS from hcap]
      exact lt_irrefl _
    unfold pushFront
    rw [if_neg hno]
  · intro hcap
    show pushFront dth e.tdepth = e.tdepth.tail ++ [dth]
    have hno : ¬ e.tdepth.length < MAX_FRONTS := by
      rw [show e.tdepth.length = MAX_FRONTS from hcap]
      exact lt_irrefl _
    unfold pushFront
    rw [if_neg hno]

/-- Witness for C8: a record already holding MAX_FRONTS = 3 freezing fronts
    stays within capacity after a new front is recorded, with the oldest
    front discarded. -/
theorem C8_bounded_front_lists_witness :
    Nfrost (recordFreezingFront 7 ⟨0, 0, 0, 0, 0, 0, [1, 2, 3], []⟩)
      ≤ MAX_FRONTS ∧
    Nthaw (recordFreezingFront 7 ⟨0, 0, 0, 0, 0, 0, [1, 2, 3], []⟩)
      ≤ MAX_FRONTS ∧
    Nfrost (recordThawingFront 4 ⟨0, 0, 0, 0, 0, 0, [1, 2, 3], []⟩)
      ≤ MAX_FRONTS ∧
    Nthaw (recordThawingFront 4 ⟨0, 0, 0, 0, 0, 0, [1, 2, 3], []⟩)
      ≤ MAX_FRONTS ∧
    (Nfrost (⟨0, 0, 0, 0, 0, 0, [1, 2, 3], []⟩ : energy_bal_struct)
        = MAX_FRONTS →
      (recordFreezingFront 7 ⟨0, 0, 0, 0, 0, 0, [1, 2, 3], []⟩).fdepth
        = ([1, 2, 3] : List ℚ).tail ++ [7]) ∧
    (Nthaw (⟨0, 0, 0, 0, 0, 0, [1, 2, 3], []⟩ : energy_bal_struct)
        = MAX_FRONTS →
      (recordThawingFront 4 ⟨0, 0, 0, 0, 0, 0, [1, 2, 3], []⟩).tdepth
        = ([] : List ℚ).tail ++ [4]) :=
  C8_bounded_front_lists 7 4 ⟨0, 0, 0, 0, 0, 0, [1, 2, 3], []⟩
    (by decide) (by decide)

/-- C9: every output variable carries exactly one aggregation policy drawn
    from the closed six-method enumeration (average, beginning, end,
    maximum, minimum, sum, with codes 0..5), and the core's step emission
    never touches the aggregates or the declared policy. -/
theorem C9_aggregation_policy (m : AggMethod) (o : out_data_struct)
    (vals : List ℚ) :
    aggMethods.length = 6 ∧
    m ∈ aggMethods ∧
    o.aggtype ∈ aggMethods ∧
    aggMethods.map AggMethod.code
      = [AGG_TYPE_AVG, AGG_TYPE_BEG, AGG_TYPE_END,
         AGG_TYPE_MAX, AGG_TYPE_MIN, AGG_TYPE_SUM] ∧
    aggMethods.map AggMethod.code = [0, 1, 2, 3, 4, 5] ∧
    (aggMethods.map AggMethod.code).Nodup ∧
    (coreStoreStep o vals).aggtype = o.aggtype ∧
    (coreStoreStep o vals).aggdata = o.aggdata ∧
    (coreStoreStep o vals).data = vals := by
  obtain ⟨v, w, a, n, dat, agd⟩ := o
  refine ⟨rfl, ?_, ?_, by decide, by decide, by decide, rfl, rfl, rfl⟩
  · cases m <;> decide
  · cases a <;> simp [aggMethods]

/-- C10: the forcing-variable codes are pairwise distinct and exactly cover
    0..N_FORCING_TYPES−1 with the SKIP placeholder last at code 23, and the
    output-variable codes are pairwise distinct, exactly the contiguous
    range 0..105, hence all strictly below N_OUTVAR_TYPES = 110. -/
theorem C10_enumeration_codes :
    forcingCodes = List.range N_FORCING_TYPES ∧
    forcingCodes.Nodup ∧
    forcingCodes.length = N_FORCING_TYPES ∧
    SKIP = N_FORCING_TYPES - 1 ∧
    forcingCodes.getLast? = some SKIP ∧
    outvarCodes.Nodup ∧
    outvarCodes = List.range 106 ∧
    outvarCodes.all (fun code => decide (code < N_OUTVAR_TYPES)) = true ∧
    N_OUTVAR_TYPES = 110 := by
  decide

/-- C5: bottom-layer baseflow is one of exactly two formulations selected by
    the BASEFLOW configuration flag (ARNO reading {Ds, Dsmax, Ws, c},
    NIJSSEN2001 reading {d1, d2, d3, d4}); under physically valid
    parameters both are non-decreasing in bottom-layer soil moisture and
    yield zero baseflow at or below the layer's residual moisture. -/
theorem C5_baseflow_formulations (p : soil_con_struct) (m1 m2 mlow : ℚ)
    (hDs : 0 ≤ p.Ds) (hWs : 0 < p.Ws) (hDsWs : p.Ds ≤ p.Ws)
    (hDsmax : 0 ≤ p.Dsmax) (hWs1 : p.Ws < 1)
    (hd1 : 0 ≤ p.d1) (hd2 : 0 ≤ p.d2)
    (hrm : p.resid_moist < p.max_moist)
    (hm : m1 ≤ m2) (hlow : mlow ≤ p.resid_moist) :
    baseflow_bottom ARNO p m1 = arno_baseflow p m1 ∧
    baseflow_bottom NIJSSEN2001 p m1 = nijssen2001_baseflow p m1 ∧
    baseflow_bottom ARNO p m1 ≤ baseflow_bottom ARNO p m2 ∧
    baseflow_bottom NIJSSEN2001 p m1 ≤ baseflow_bottom NIJSSEN2001 p m2 ∧
    baseflow_bottom ARNO p mlow = 0 ∧
    baseflow_bottom NIJSSEN2001 p mlow = 0 := by
  refine ⟨rfl, rfl, ?_, ?_, ?_, ?_⟩
  · show arno_baseflow p m1 ≤ arno_baseflow p m2
    exact arno_baseflow_mono p m1 m2 hDs hWs hDsWs hDsmax hWs1 hrm hm
  · show nijssen2001_baseflow p m1 ≤ nijssen2001_baseflow p m2
    exact nijssen2001_baseflow_mono p m1 m2 hd1 hd2 hrm hm
  · show arno_baseflow p mlow = 0
    exact arno_baseflow_zero p mlow hlow
  · show nijssen2001_baseflow p mlow = 0
    exact nijssen2001_baseflow_zero p mlow hlow

/-- Witness for C5: with Ds = 1/10, Dsmax = 2, Ws = 9/10, c = 2, d1 = d2 = 1,
    d3 = 1/2, d4 = 2, residual moisture 10 and maximum 100, both
    formulations are monotone between moistures 50 and 80 and vanish at
    moisture 5. -/
theorem C5_baseflow_formulations_witness :
    baseflow_bottom ARNO ⟨1/10, 2, 9/10, 2, 1, 1, 1/2, 2, 10, 100⟩ 50
      = arno_baseflow ⟨1/10, 2, 9/10, 2, 1, 1, 1/2, 2, 10, 100⟩ 50 ∧
    baseflow_bottom NIJSSEN2001 ⟨1/10, 2, 9/10, 2, 1, 1, 1/2, 2, 10, 100⟩ 50
      = nijssen2001_baseflow ⟨1/10, 2, 9/10, 2, 1, 1, 1/2, 2, 10, 100⟩ 50 ∧
    baseflow_bottom ARNO ⟨1/10, 2, 9/10, 2, 1, 1, 1/2, 2, 10, 100⟩ 50
      ≤ baseflow_bottom ARNO ⟨1/10, 2, 9/10, 2, 1, 1, 1/2, 2, 10, 100⟩ 80 ∧
    baseflow_bottom NIJSSEN2001 ⟨1/10, 2, 9/10, 2, 1, 1, 1/2, 2, 10, 100⟩ 50
      ≤ baseflow_bottom NIJSSEN2001
          ⟨1/10, 2, 9/10, 2, 1, 1, 1/2, 2, 10, 100⟩ 80 ∧
    baseflow_bottom ARNO ⟨1/10, 2, 9/10, 2, 1, 1, 1/2, 2, 10, 100⟩ 5 = 0 ∧
    baseflow_bottom NIJSSEN2001
      ⟨1/10, 2, 9/10, 2, 1, 1, 1/2, 2, 10, 100⟩ 5 = 0 :=
  C5_baseflow_formulations ⟨1/10, 2, 9/10, 2, 1, 1, 1/2, 2, 10, 100⟩ 50 80 5
    (by norm_num) (by norm_num) (by norm_num) (by norm_num) (by norm_num)
    (by norm_num) (by norm_num) (by norm_num) (by norm_num) (by norm_num)
